import Mathlib

/-! Verification of simulavr-toolbar: a shallow embedding of `toolbarplugin.cpp`.

The plugin object is embedded as a record of its C++ members.  Pointers are
`Option`s: `none` is a pointer that does not point at a live object (NULL,
or a member the constructor never assigned), and dereferencing it is the
fault `nullDeref`.  Every call the plugin makes into the host toolkit
(log manager, toolbar, LED control, sockets) is appended to the ghost
field `calls`, oldest first, so that statements about what was or was not
invoked can be made.  What the outside world decides (whether a file is
readable, whether a socket is usable, which datagram is pending) is an
explicit argument of the operation that asks for it.  A C `char` is a Lean
`Char`: the bytes are the characters with code below 256, and the statements
hold for every `Char`.
-/

namespace SimulavrToolbar

/-! ## Constants (`#define`s of the two source files) -/

def TEMP_UP_ID : Nat := 5000
def TEMP_DOWN_ID : Nat := 5001
def SOCKET_ID : Nat := 5555

/-! ## Host toolkit objects -/

/-- A decoded image (`wxImage` after a successful `LoadFile`). -/
structure wxImage where
  pixels : List Nat
deriving DecidableEq, Repr

/-- A `wxBitmap`: empty when default constructed, otherwise made from an image. -/
structure wxBitmap where
  image : Option wxImage
deriving DecidableEq, Repr

/-- A file opened inside the resource archive (`wxFSFile`), seen as its stream. -/
structure wxFSFile where
  stream : List Nat
deriving DecidableEq, Repr

/-- A value of type `wxBitmap *` that points at a bitmap: the address of the
member `m_dummyBmp`, or an object made by `new wxBitmap(image)`. -/
inductive BitmapPtr where
  | dummyBmp
  | heap (obj : wxBitmap)
deriving DecidableEq, Repr

/-- The LED control (`wxStaticBitmap`) with the bitmap it displays. -/
structure wxStaticBitmap where
  bitmap : wxBitmap
deriving DecidableEq, Repr

/-- What `AddControl` / `AddTool` put on the toolbar. -/
inductive ToolBarItem where
  | staticText (id : Nat) (text : String)
  | led
  | tool (id : Nat) (text : String) (bmp : wxBitmap)
deriving DecidableEq, Repr

/-- The `wxToolBar` handed over by the host. -/
structure wxToolBar where
  id : Nat
  items : List ToolBarItem
  realized : Nat
deriving DecidableEq, Repr

/-- The kinds of socket event (`wxSocketNotify`). -/
inductive wxSocketNotify where
  | wxSOCKET_INPUT
  | wxSOCKET_OUTPUT
  | wxSOCKET_CONNECTION
  | wxSOCKET_LOST
deriving DecidableEq, Repr

/-- A `wxDatagramSocket` bound to `service`. -/
structure wxDatagramSocket where
  service : Nat
  ok : Bool
  eventHandler : Option Nat
  inputFlag : Bool
  notify : Bool
deriving DecidableEq, Repr

/-- The two member functions that `Connect` can attach to a tool id. -/
inductive Handler where
  | OnTempUpClicked
  | OnTempDnClicked
deriving DecidableEq, Repr

/-- One entry of the dynamic event table filled by `Connect`
(the event type is always `wxEVT_COMMAND_TOOL_CLICKED`). -/
structure Connection where
  id : Nat
  handler : Handler
deriving DecidableEq, Repr

/-- Calls into the host toolkit, as recorded in the ghost field `calls`. -/
inductive Call where
  | NotifyMissingFile (name : String)
  | RegisterEventSink
  | LogError (msg : String)
  | SetBitmap (bmp : wxBitmap)
  | Realize
  | AddControl (item : ToolBarItem)
  | AddTool (id : Nat)
  | NewSocket (service : Nat)
  | DeleteSocket
  | SetEventHandler (id : Nat)
  | SetNotify
  | Notify (flag : Bool)
  | RecvFrom (nbytes : Nat)
  | SendTo (host : String) (service : Nat) (payload : List Char)
  | Connect (id : Nat) (handler : Handler)
deriving DecidableEq, Repr

/-- The ways the behaviour of the code becomes undefined: dereferencing a
pointer that points at no live object, and reaching the closing brace of a
function declared `bool` without a `return`. -/
inductive Fault where
  | nullDeref
  | missingReturn
deriving DecidableEq, Repr

/-! ## The plugin object -/

/-- The members of `class SimulavrToolbarPlugin` (toolbarplugin.h), followed
by the dynamic event table of its `wxEvtHandler` base, the flag of the
debugger-start event sink, and the ghost record of toolkit calls. -/
structure SimulavrToolbarPlugin where
  m_toolbar : Option wxToolBar
  m_ledon : Option BitmapPtr
  m_ledoff : Option BitmapPtr
  m_ledtri : Option BitmapPtr
  m_temp_up : Option BitmapPtr
  m_temp_dn : Option BitmapPtr
  m_dummyBmp : wxBitmap
  m_sock : Option wxDatagramSocket
  m_led : Option wxStaticBitmap
  connections : List Connection
  debugSink : Bool
  calls : List Call
deriving DecidableEq, Repr

/-- The answers of the file system to `LoadBitmapFromResourceFile`. -/
structure ResourceEnv where
  resourceFile : String
  readable : Bool
  OpenFile : String → Option wxFSFile
  LoadFile : wxFSFile → Option wxImage

/-- The answers of the network stack to `BuildToolBar`. -/
structure SocketEnv where
  IsOk : Bool
  GetLocal : Bool

/-- The answers of the network stack to `SendByte`: whether the transmit
socket is usable and the `LastCount` of its `SendTo`. -/
structure SendEnv where
  IsOk : Bool
  LastCount : Nat

abbrev Plugin := SimulavrToolbarPlugin

/-- Record one toolkit call. -/
def SimulavrToolbarPlugin.call (s : Plugin) (c : Call) : Plugin :=
  { s with calls := s.calls ++ [c] }

/-- Dereference `*p` of a bitmap pointer of the plugin. -/
def SimulavrToolbarPlugin.deref (s : Plugin) (p : BitmapPtr) : wxBitmap :=
  match p with
  | .dummyBmp => s.m_dummyBmp
  | .heap obj => obj

/-- The constructor (lines 37-44): `m_led(NULL)`, then `Manager::LoadResource`. -/
def SimulavrToolbarPlugin.new (loadResource : Bool) : Plugin :=
  let s : Plugin :=
    { m_toolbar := none, m_ledon := none, m_ledoff := none, m_ledtri := none,
      m_temp_up := none, m_temp_dn := none, m_dummyBmp := { image := none },
      m_sock := none, m_led := none, connections := [], debugSink := false,
      calls := [] }
  if !loadResource then s.call (.NotifyMissingFile "simulavr.zip") else s

/-- Source `LoadBitmapFromResourceFile` (toolbarplugin.cpp, lines 64-97): the
pointer returned and the plugin after. -/
def LoadBitmapFromResourceFile (env : ResourceEnv) (s : Plugin) (imagename : String) :
    BitmapPtr × Plugin :=
  let resourceFile := env.resourceFile
  if env.readable == false then
    (.dummyBmp, s.call (.LogError ("Unable to read resource file \x27" ++ resourceFile ++ "\x27.")))
  else
    match env.OpenFile ("file:" ++ resourceFile ++ "#zip:images/" ++ imagename) with
    | none =>
      (.dummyBmp, s.call (.LogError ("Could not find resource in archive : " ++ imagename)))
    | some fsfile =>
      match env.LoadFile fsfile with
      | none => (.dummyBmp, s.call (.LogError ("Unable to load resource:" ++ imagename)))
      | some image => (.heap { image := some image }, s)

/-- The call `m_led->SetBitmap(*p)` for a bitmap pointer member `p`. -/
def SimulavrToolbarPlugin.ledSetBitmap (s : Plugin) (p : Option BitmapPtr) : Except Fault Plugin :=
  match s.m_led, p with
  | some _, some q =>
    .ok ({ s with m_led := some { bitmap := s.deref q } }.call (.SetBitmap (s.deref q)))
  | _, _ => .error .nullDeref

/-- The call `m_toolbar->Realize()`. -/
def SimulavrToolbarPlugin.toolbarRealize (s : Plugin) : Except Fault Plugin :=
  match s.m_toolbar with
  | some tb =>
    .ok ({ s with m_toolbar := some { tb with realized := tb.realized + 1 } }.call .Realize)
  | none => .error .nullDeref

/-- The call `m_sock->Notify(flag)`. -/
def SimulavrToolbarPlugin.sockNotify (s : Plugin) (flag : Bool) : Except Fault Plugin :=
  match s.m_sock with
  | some sock => .ok ({ s with m_sock := some { sock with notify := flag } }.call (.Notify flag))
  | none => .error .nullDeref

/-- The call `m_sock->RecvFrom(addr, buf, nbytes)`: the bytes stored in `buf`,
at most `nbytes` of the pending datagram (none when the receive fails, for which the
pending datagram is `[]`); `LastCount()` is their number. -/
def SimulavrToolbarPlugin.sockRecvFrom (s : Plugin) (pending : List Char) (nbytes : Nat) :
    Except Fault (List Char × Plugin) :=
  match s.m_sock with
  | some _ => .ok (pending.take nbytes, s.call (.RecvFrom nbytes))
  | none => .error .nullDeref

/-- Source `OnDebugStart` (lines 104-108). -/
def OnDebugStart (s : Plugin) : Except Fault Plugin := do
  let s ← s.ledSetBitmap s.m_ledtri
  s.toolbarRealize

/-- Source `OnSocketEvent` (lines 115-158), for the event kind `event` and the
datagram `pending` on the socket.  `buf` holds the `n` received bytes: `n` is
zero when it is `[]`, and `buf[0]` is its head otherwise. -/
def OnSocketEvent (s : Plugin) (event : wxSocketNotify) (pending : List Char) :
    Except Fault Plugin :=
  match event with
  | .wxSOCKET_INPUT => do
    let s ← s.sockNotify false
    let (buf, s) ← s.sockRecvFrom pending 1024
    match buf with
    | [] => s.sockNotify true
    | c :: _ =>
      let s ←
        if s.m_led.isSome then
          if c = 'H' ∨ c = 'h' then do
            let s ← s.ledSetBitmap s.m_ledon
            s.toolbarRealize
          else if c = 'L' ∨ c = 'l' then do
            let s ← s.ledSetBitmap s.m_ledoff
            s.toolbarRealize
          else if c = 'Z' then do
            let s ← s.ledSetBitmap s.m_ledtri
            s.toolbarRealize
          else pure s
        else pure s
      s.sockNotify true
  | _ => pure s

/-- Source `SendByte` (lines 165-182): the value returned and the plugin
after.  The function is declared `bool`; the result is `none` when control
reaches the closing brace of the body, where there is no `return` statement. -/
def SendByte (env : SendEnv) (s : Plugin) (ch : Char) : Option Bool × Plugin :=
  let s := s.call (.NewSocket 0)
  if !env.IsOk then
    (some false, s)
  else
    let s := s.call (.SendTo "localhost" 7777 [ch])
    if env.LastCount != 1 then
      (some false, s)
    else
      (none, s)

/-- Source `OnAttach` (lines 191-195): register `OnDebugStart` for
`cbEVT_DEBUGGER_STARTED`. -/
def OnAttach (s : Plugin) : Plugin :=
  { s with debugSink := true }.call .RegisterEventSink

/-- Source `OnTempUpClicked` (lines 222-225): the call `SendByte('>')`, whose
value is discarded.  When `SendByte` reaches its closing brace without a
`return`, the behaviour of the call is undefined and the handler does not
complete: the fault `missingReturn`. -/
def OnTempUpClicked (env : SendEnv) (s : Plugin) : Except Fault Plugin :=
  match SendByte env s '>' with
  | (some _, s) => .ok s
  | (none, _) => .error .missingReturn

/-- Source `OnTempDnClicked` (lines 232-235): the call `SendByte('<')`, with
the same fault as `OnTempUpClicked` when `SendByte` does not return. -/
def OnTempDnClicked (env : SendEnv) (s : Plugin) : Except Fault Plugin :=
  match SendByte env s '<' with
  | (some _, s) => .ok s
  | (none, _) => .error .missingReturn

/-- The calls `toolBar->AddControl(..)` and `toolBar->AddTool(..)` on the
toolbar that `m_toolbar` points at. -/
def SimulavrToolbarPlugin.toolbarAdd (s : Plugin) (item : ToolBarItem) (c : Call) : Plugin :=
  { s with m_toolbar :=
      s.m_toolbar.map fun (tb : wxToolBar) => { tb with items := tb.items ++ [item] } }.call c

/-- Source `BuildToolBar` (lines 248-300), for the toolbar object `toolBar`
handed over by the host (`m_toolbar` and `toolBar` point at the same object):
the value returned and the plugin after.  The operator `new` does not return
NULL, so the first of the three early returns is never taken. -/
def BuildToolBar (renv : ResourceEnv) (senv : SocketEnv) (s : Plugin) (toolBar : wxToolBar) :
    Bool × Plugin :=
  let s := { s with m_toolbar := some toolBar }
  -- load the toolbar images
  let (ledon, s) := LoadBitmapFromResourceFile renv s "ledon.png"
  let s := { s with m_ledon := some ledon }
  let (ledoff, s) := LoadBitmapFromResourceFile renv s "ledoff.png"
  let s := { s with m_ledoff := some ledoff }
  let (ledtri, s) := LoadBitmapFromResourceFile renv s "ledtri.png"
  let s := { s with m_ledtri := some ledtri }
  let (temp_up, s) := LoadBitmapFromResourceFile renv s "temp_up.png"
  let s := { s with m_temp_up := some temp_up }
  let (temp_dn, s) := LoadBitmapFromResourceFile renv s "temp_dn.png"
  let s := { s with m_temp_dn := some temp_dn }
  -- add toolbar controls and tools
  let s := { s with m_led := some { bitmap := s.deref ledtri } }
  let s := s.toolbarAdd (.staticText toolBar.id " LED State: ")
    (.AddControl (.staticText toolBar.id " LED State: "))
  let s := s.toolbarAdd .led (.AddControl .led)
  let s := s.toolbarAdd (.staticText toolBar.id "       Temperature: ")
    (.AddControl (.staticText toolBar.id "       Temperature: "))
  let s := s.toolbarAdd (.tool TEMP_UP_ID "Raise Device Temperature" (s.deref temp_up))
    (.AddTool TEMP_UP_ID)
  let s := s.toolbarAdd (.tool TEMP_DOWN_ID "Lower Device Temperature" (s.deref temp_dn))
    (.AddTool TEMP_DOWN_ID)
  -- create the communications socket
  let s := { s with m_sock := some { service := 8877, ok := senv.IsOk, eventHandler := none,
                                     inputFlag := false, notify := false } }.call (.NewSocket 8877)
  -- check to make sure the socket is okay before proceeding
  match s.m_sock with
  | none => (true, s)
  | some sock =>
    if !sock.ok then
      (true, { s with m_sock := none }.call .DeleteSocket)
    else if !senv.GetLocal then
      (true, { s with m_sock := none }.call .DeleteSocket)
    else
      -- set up the event handler
      let sock := { sock with eventHandler := some SOCKET_ID }
      let s := { s with m_sock := some sock }.call (.SetEventHandler SOCKET_ID)
      let sock := { sock with inputFlag := true }
      let s := { s with m_sock := some sock }.call .SetNotify
      let sock := { sock with notify := true }
      let s := { s with m_sock := some sock }.call (.Notify true)
      -- connect the event handlers for the toolbar buttons
      let s := { s with connections :=
        s.connections ++ [Connection.mk TEMP_UP_ID .OnTempUpClicked] }.call
          (.Connect TEMP_UP_ID .OnTempUpClicked)
      let s := { s with connections :=
        s.connections ++ [Connection.mk TEMP_DOWN_ID .OnTempDnClicked] }.call
          (.Connect TEMP_DOWN_ID .OnTempDnClicked)
      (true, s)

/-- The toolkit dispatching a click on the tool `id` through the dynamic
event table filled by `Connect`: the handler of an entry for `id` runs, and
nothing runs when there is none. -/
def ToolClicked (env : SendEnv) (s : Plugin) (id : Nat) : Except Fault Plugin :=
  match s.connections.find? fun c => c.id == id with
  | some c =>
    match c.handler with
    | .OnTempUpClicked => OnTempUpClicked env s
    | .OnTempDnClicked => OnTempDnClicked env s
  | none => .ok s

/-! ## Derived notions used in the statements -/

/-- The bitmap the LED control displays, when the control exists. -/
def SimulavrToolbarPlugin.displayed (s : Plugin) : Option wxBitmap :=
  s.m_led.map fun led => led.bitmap

/-- The bitmap a pointer member points at, when it points at one. -/
def SimulavrToolbarPlugin.bitmapAt (s : Plugin) (p : Option BitmapPtr) : Option wxBitmap :=
  p.map s.deref

/-- The toolbar and the three LED bitmap pointers are live whenever the LED
control is: `m_led` is only ever assigned in `BuildToolBar`, after them. -/
def SimulavrToolbarPlugin.Built (s : Plugin) : Prop :=
  s.m_led.isSome = true →
    s.m_toolbar.isSome = true ∧ s.m_ledon.isSome = true ∧ s.m_ledoff.isSome = true ∧
      s.m_ledtri.isSome = true

instance (s : Plugin) : Decidable s.Built := by
  unfold SimulavrToolbarPlugin.Built; infer_instance

/-- The plugin states the code can reach: construction, then any sequence of
`OnAttach`, `BuildToolBar`, socket events, debugger starts and clicks that
completed. -/
inductive Reachable : Plugin → Prop where
  | new (loadResource : Bool) : Reachable (SimulavrToolbarPlugin.new loadResource)
  | attach {s : Plugin} : Reachable s → Reachable (OnAttach s)
  | build {s : Plugin} (renv : ResourceEnv) (senv : SocketEnv) (toolBar : wxToolBar) :
      Reachable s → Reachable (BuildToolBar renv senv s toolBar).2
  | socketEvent {s s' : Plugin} (event : wxSocketNotify) (pending : List Char) :
      Reachable s → OnSocketEvent s event pending = .ok s' → Reachable s'
  | debugStart {s s' : Plugin} : Reachable s → OnDebugStart s = .ok s' → Reachable s'
  | tempUp {s s' : Plugin} (env : SendEnv) :
      Reachable s → OnTempUpClicked env s = .ok s' → Reachable s'
  | tempDn {s s' : Plugin} (env : SendEnv) :
      Reachable s → OnTempDnClicked env s = .ok s' → Reachable s'

/-- Whether the call is `SetBitmap` on the LED control or `Realize` on the
toolbar. -/
def Call.isLedUpdate : Call → Bool
  | .SetBitmap _ => true
  | .Realize => true
  | _ => false

/-- Whether the call is made on a socket. -/
def Call.isSocketCall : Call → Bool
  | .NewSocket _ => true
  | .DeleteSocket => true
  | .SetEventHandler _ => true
  | .SetNotify => true
  | .Notify _ => true
  | .RecvFrom _ => true
  | .SendTo _ _ _ => true
  | _ => false

/-- Whether the call is `LogError`. -/
def Call.isLogError : Call → Bool
  | .LogError _ => true
  | _ => false

/-- Whether the call is `SendTo`. -/
def Call.isSendTo : Call → Bool
  | .SendTo _ _ _ => true
  | _ => false

/-- Whether the call is `Connect`. -/
def Call.isConnect : Call → Bool
  | .Connect _ _ => true
  | _ => false

/-- A freshly constructed plugin whose resource archive was found. -/
def blank : Plugin := SimulavrToolbarPlugin.new true

/-- The pointer `LoadBitmapFromResourceFile` returns for `imagename`. -/
def loadPtr (env : ResourceEnv) (imagename : String) : BitmapPtr :=
  (LoadBitmapFromResourceFile env blank imagename).1

/-- The calls `LoadBitmapFromResourceFile` makes for `imagename`. -/
def loadLog (env : ResourceEnv) (imagename : String) : List Call :=
  (LoadBitmapFromResourceFile env blank imagename).2.calls

/-! ## Concrete inputs -/

/-- A readable archive in which every image is found and decodes. -/
def goodResources : ResourceEnv :=
  { resourceFile := "simulavr.zip", readable := true,
    OpenFile := fun loc => some { stream := loc.toList.map Char.toNat },
    LoadFile := fun f => some { pixels := f.stream } }

/-- An archive that cannot be read. -/
def unreadableResources : ResourceEnv :=
  { resourceFile := "simulavr.zip", readable := false,
    OpenFile := fun _ => none, LoadFile := fun _ => none }

/-- An empty toolbar as handed over by the host. -/
def emptyToolBar : wxToolBar := { id := 7, items := [], realized := 0 }

/-- The plugin after construction and `OnAttach`. -/
def attachedPlugin : Plugin := OnAttach (SimulavrToolbarPlugin.new true)

/-- The plugin after construction, `OnAttach` and a `BuildToolBar` in which
every resource loads and the listening socket is set up. -/
def builtPlugin : Plugin :=
  (BuildToolBar goodResources { IsOk := true, GetLocal := true } attachedPlugin emptyToolBar).2

/-! ## `OnSocketEvent` -/

/-- C1: when a non-empty datagram `c :: rest` is received and the LED control
exists, `OnSocketEvent` returns and the bitmap the LED displays afterwards is
fixed by `c` alone: the on-bitmap for `H`/`h`, the off-bitmap for `L`/`l`, the
tristate-bitmap for `Z`, whatever the LED displayed before. -/
theorem OnSocketEvent_decodes_first_byte (s : Plugin) (c : Char) (rest : List Char)
    (hsock : s.m_sock.isSome = true) (hled : s.m_led.isSome = true) (hbuilt : s.Built) :
    ∃ s', OnSocketEvent s .wxSOCKET_INPUT (c :: rest) = .ok s' ∧
      s'.displayed.isSome = true ∧
      (c = 'H' ∨ c = 'h' → s'.displayed = s.bitmapAt s.m_ledon) ∧
      (c = 'L' ∨ c = 'l' → s'.displayed = s.bitmapAt s.m_ledoff) ∧
      (c = 'Z' → s'.displayed = s.bitmapAt s.m_ledtri) ∧
      s'.m_ledon = s.m_ledon ∧ s'.m_ledoff = s.m_ledoff ∧ s'.m_ledtri = s.m_ledtri ∧
      s'.m_dummyBmp = s.m_dummyBmp := by
  obtain ⟨htb, hon, hoff, htri⟩ := hbuilt hled
  obtain ⟨sock, hsock⟩ := Option.isSome_iff_exists.mp hsock
  obtain ⟨led, hled⟩ := Option.isSome_iff_exists.mp hled
  obtain ⟨tb, htb⟩ := Option.isSome_iff_exists.mp htb
  obtain ⟨pon, hon⟩ := Option.isSome_iff_exists.mp hon
  obtain ⟨poff, hoff⟩ := Option.isSome_iff_exists.mp hoff
  obtain ⟨ptri, htri⟩ := Option.isSome_iff_exists.mp htri
  simp only [OnSocketEvent, SimulavrToolbarPlugin.sockNotify, SimulavrToolbarPlugin.sockRecvFrom,
    SimulavrToolbarPlugin.ledSetBitmap, SimulavrToolbarPlugin.toolbarRealize,
    SimulavrToolbarPlugin.call, SimulavrToolbarPlugin.displayed, SimulavrToolbarPlugin.bitmapAt,
    bind, Except.bind, pure, Except.pure, hsock, hled, htb, hon, hoff, htri]
  simp only [List.take_succ_cons, Option.isSome_some, if_true, Option.map_some']
  by_cases h1 : c = 'H' ∨ c = 'h'
  · rw [if_pos h1]
    refine ⟨_, rfl, rfl, fun _ => rfl, ?_, ?_, rfl, rfl, rfl, rfl⟩
    · rcases h1 with h | h <;> subst h <;> intro h' <;> exact absurd h' (by decide)
    · rcases h1 with h | h <;> subst h <;> intro h' <;> exact absurd h' (by decide)
  · rw [if_neg h1]
    by_cases h2 : c = 'L' ∨ c = 'l'
    · rw [if_pos h2]
      refine ⟨_, rfl, rfl, fun h => absurd h h1, fun _ => rfl, ?_, rfl, rfl, rfl, rfl⟩
      rcases h2 with h | h <;> subst h <;> intro h' <;> exact absurd h' (by decide)
    · rw [if_neg h2]
      by_cases h3 : c = 'Z'
      · rw [if_pos h3]
        exact ⟨_, rfl, rfl, fun h => absurd h h1, fun h => absurd h h2, fun _ => rfl, rfl, rfl,
          rfl, rfl⟩
      · rw [if_neg h3]
        exact ⟨_, rfl, rfl, fun h => absurd h h1, fun h => absurd h h2, fun h => absurd h h3,
          rfl, rfl, rfl, rfl⟩

theorem OnSocketEvent_decodes_first_byte_witness :
    builtPlugin.m_sock.isSome = true ∧ builtPlugin.m_led.isSome = true ∧ builtPlugin.Built ∧
    ∃ s', OnSocketEvent builtPlugin .wxSOCKET_INPUT ('h' :: ['x', 'y']) = .ok s' ∧
      s'.displayed.isSome = true ∧
      ('h' = 'H' ∨ 'h' = 'h' → s'.displayed = builtPlugin.bitmapAt builtPlugin.m_ledon) ∧
      ('h' = 'L' ∨ 'h' = 'l' → s'.displayed = builtPlugin.bitmapAt builtPlugin.m_ledoff) ∧
      ('h' = 'Z' → s'.displayed = builtPlugin.bitmapAt builtPlugin.m_ledtri) ∧
      s'.m_ledon = builtPlugin.m_ledon ∧ s'.m_ledoff = builtPlugin.m_ledoff ∧
      s'.m_ledtri = builtPlugin.m_ledtri ∧ s'.m_dummyBmp = builtPlugin.m_dummyBmp :=
  ⟨by decide, by decide, by decide,
    OnSocketEvent_decodes_first_byte builtPlugin 'h' ['x', 'y'] (by decide) (by decide)
      (by decide)⟩

/-- C2: when the first byte `c` of the received datagram is none of `H`, `h`,
`L`, `l`, `Z`, `OnSocketEvent` returns with the LED control, the bitmap it
displays and the toolbar as they were, and the calls it made are `Notify(false)`,
`RecvFrom`, `Notify(true)`: neither `SetBitmap` nor `Realize`. -/
theorem OnSocketEvent_other_byte_unchanged (s : Plugin) (c : Char) (rest : List Char)
    (hsock : s.m_sock.isSome = true)
    (hc : c ≠ 'H' ∧ c ≠ 'h' ∧ c ≠ 'L' ∧ c ≠ 'l' ∧ c ≠ 'Z') :
    ∃ s', OnSocketEvent s .wxSOCKET_INPUT (c :: rest) = .ok s' ∧
      s'.m_led = s.m_led ∧ s'.displayed = s.displayed ∧ s'.m_toolbar = s.m_toolbar ∧
      s'.calls = s.calls ++ [.Notify false, .RecvFrom 1024, .Notify true] ∧
      ∀ e ∈ s'.calls.drop s.calls.length, e.isLedUpdate = false := by
  obtain ⟨sock, hsock⟩ := Option.isSome_iff_exists.mp hsock
  obtain ⟨hH, hh, hL, hl, hZ⟩ := hc
  simp only [OnSocketEvent, SimulavrToolbarPlugin.sockNotify, SimulavrToolbarPlugin.sockRecvFrom,
    SimulavrToolbarPlugin.call, SimulavrToolbarPlugin.displayed,
    bind, Except.bind, pure, Except.pure, hsock]
  simp only [List.take_succ_cons, hH, hh, hL, hl, hZ, or_self, if_false, ite_self]
  refine ⟨_, rfl, rfl, rfl, rfl, ?_, ?_⟩
  · simp
  · simp [Call.isLedUpdate]

theorem OnSocketEvent_other_byte_unchanged_witness :
    builtPlugin.m_sock.isSome = true ∧
    ('z' ≠ 'H' ∧ 'z' ≠ 'h' ∧ 'z' ≠ 'L' ∧ 'z' ≠ 'l' ∧ 'z' ≠ 'Z') ∧
    ∃ s', OnSocketEvent builtPlugin .wxSOCKET_INPUT ('z' :: ['H']) = .ok s' ∧
      s'.m_led = builtPlugin.m_led ∧ s'.displayed = builtPlugin.displayed ∧
      s'.m_toolbar = builtPlugin.m_toolbar ∧
      s'.calls = builtPlugin.calls ++ [.Notify false, .RecvFrom 1024, .Notify true] ∧
      ∀ e ∈ s'.calls.drop builtPlugin.calls.length, e.isLedUpdate = false :=
  ⟨by decide, by decide,
    OnSocketEvent_other_byte_unchanged builtPlugin 'z' ['H'] (by decide) (by decide)⟩

/-- The received bytes after the first do not reach the handler's result. -/
theorem OnSocketEvent_cons_eq (s : Plugin) (c : Char) (r₁ r₂ : List Char) :
    OnSocketEvent s .wxSOCKET_INPUT (c :: r₁) = OnSocketEvent s .wxSOCKET_INPUT (c :: r₂) := by
  simp only [OnSocketEvent, SimulavrToolbarPlugin.sockNotify, SimulavrToolbarPlugin.sockRecvFrom,
    SimulavrToolbarPlugin.call, bind, Except.bind]
  cases s.m_sock <;> simp only [List.take_succ_cons]

/-- With a live socket and the `Built` invariant the handler does not fault. -/
theorem OnSocketEvent_returns (s : Plugin) (event : wxSocketNotify) (pending : List Char)
    (hsock : s.m_sock.isSome = true) (hbuilt : s.Built) :
    ∃ s', OnSocketEvent s event pending = .ok s' := by
  obtain ⟨sock, hsock⟩ := Option.isSome_iff_exists.mp hsock
  cases event <;> try exact ⟨s, rfl⟩
  cases pending with
  | nil =>
    simp only [OnSocketEvent, SimulavrToolbarPlugin.sockNotify,
      SimulavrToolbarPlugin.sockRecvFrom, SimulavrToolbarPlugin.call, bind, Except.bind, hsock,
      List.take_nil]
    exact ⟨_, rfl⟩
  | cons c rest =>
    cases hled : s.m_led with
    | none =>
      simp only [OnSocketEvent, SimulavrToolbarPlugin.sockNotify,
        SimulavrToolbarPlugin.sockRecvFrom, SimulavrToolbarPlugin.call, bind, Except.bind,
        pure, Except.pure, hsock, hled, List.take_succ_cons, Option.isSome_none,
        Bool.false_eq_true, if_false]
      exact ⟨_, rfl⟩
    | some led =>
      obtain ⟨htb, hon, hoff, htri⟩ := hbuilt (by simp [hled])
      obtain ⟨tb, htb⟩ := Option.isSome_iff_exists.mp htb
      obtain ⟨pon, hon⟩ := Option.isSome_iff_exists.mp hon
      obtain ⟨poff, hoff⟩ := Option.isSome_iff_exists.mp hoff
      obtain ⟨ptri, htri⟩ := Option.isSome_iff_exists.mp htri
      simp only [OnSocketEvent, SimulavrToolbarPlugin.sockNotify,
        SimulavrToolbarPlugin.sockRecvFrom, SimulavrToolbarPlugin.ledSetBitmap,
        SimulavrToolbarPlugin.toolbarRealize, SimulavrToolbarPlugin.call, bind, Except.bind,
        pure, Except.pure, hsock, hled, htb, hon, hoff, htri, List.take_succ_cons,
        Option.isSome_some, if_true]
      split_ifs <;> exact ⟨_, rfl⟩

/-- C7: for every `wxSOCKET_INPUT` event (whatever is pending, the empty
datagram of the early return included, and whether or not the LED control
exists) `OnSocketEvent` returns, its calls are `Notify(false)`, then
`RecvFrom`, then only LED and toolbar updates, then `Notify(true)` as the last
call, and the socket is left with notification enabled. -/
theorem OnSocketEvent_notify_bracket (s : Plugin) (pending : List Char)
    (hsock : s.m_sock.isSome = true) (hbuilt : s.Built) :
    ∃ s' mid, OnSocketEvent s .wxSOCKET_INPUT pending = .ok s' ∧
      s'.calls =
        s.calls ++ (Call.Notify false :: Call.RecvFrom 1024 :: mid ++ [Call.Notify true]) ∧
      (∀ e ∈ mid, e.isLedUpdate = true ∧ e.isSocketCall = false) ∧
      (pending = [] → mid = []) ∧ (s.m_led = none → mid = []) ∧
      s'.calls.getLast? = some (Call.Notify true) ∧
      ∃ sock, s'.m_sock = some sock ∧ sock.notify = true := by
  obtain ⟨sock, hsock⟩ := Option.isSome_iff_exists.mp hsock
  cases pending with
  | nil =>
    simp only [OnSocketEvent, SimulavrToolbarPlugin.sockNotify,
      SimulavrToolbarPlugin.sockRecvFrom, SimulavrToolbarPlugin.call, bind, Except.bind, hsock,
      List.take_nil]
    exact ⟨_, [], rfl, by simp⟩
  | cons c rest =>
    cases hled : s.m_led with
    | none =>
      simp only [OnSocketEvent, SimulavrToolbarPlugin.sockNotify,
        SimulavrToolbarPlugin.sockRecvFrom, SimulavrToolbarPlugin.call, bind, Except.bind,
        pure, Except.pure, hsock, hled, List.take_succ_cons, Option.isSome_none,
        Bool.false_eq_true, if_false]
      exact ⟨_, [], rfl, by simp⟩
    | some led =>
      obtain ⟨htb, hon, hoff, htri⟩ := hbuilt (by simp [hled])
      obtain ⟨tb, htb⟩ := Option.isSome_iff_exists.mp htb
      obtain ⟨pon, hon⟩ := Option.isSome_iff_exists.mp hon
      obtain ⟨poff, hoff⟩ := Option.isSome_iff_exists.mp hoff
      obtain ⟨ptri, htri⟩ := Option.isSome_iff_exists.mp htri
      simp only [OnSocketEvent, SimulavrToolbarPlugin.sockNotify,
        SimulavrToolbarPlugin.sockRecvFrom, SimulavrToolbarPlugin.ledSetBitmap,
        SimulavrToolbarPlugin.toolbarRealize, SimulavrToolbarPlugin.call, bind, Except.bind,
        pure, Except.pure, hsock, hled, htb, hon, hoff, htri, List.take_succ_cons,
        Option.isSome_some, if_true]
      split_ifs
      · exact ⟨_, [.SetBitmap (s.deref pon), .Realize], rfl, by simp [Call.isLedUpdate,
          Call.isSocketCall, SimulavrToolbarPlugin.deref]⟩
      · exact ⟨_, [.SetBitmap (s.deref poff), .Realize], rfl, by simp [Call.isLedUpdate,
          Call.isSocketCall, SimulavrToolbarPlugin.deref]⟩
      · exact ⟨_, [.SetBitmap (s.deref ptri), .Realize], rfl, by simp [Call.isLedUpdate,
          Call.isSocketCall, SimulavrToolbarPlugin.deref]⟩
      · exact ⟨_, [], rfl, by simp⟩

theorem OnSocketEvent_notify_bracket_witness :
    builtPlugin.m_sock.isSome = true ∧ builtPlugin.Built ∧
    ∃ s' mid, OnSocketEvent builtPlugin .wxSOCKET_INPUT ['L'] = .ok s' ∧
      s'.calls = builtPlugin.calls ++
        (Call.Notify false :: Call.RecvFrom 1024 :: mid ++ [Call.Notify true]) ∧
      (∀ e ∈ mid, e.isLedUpdate = true ∧ e.isSocketCall = false) ∧
      (['L'] = [] → mid = []) ∧ (builtPlugin.m_led = none → mid = []) ∧
      s'.calls.getLast? = some (Call.Notify true) ∧
      ∃ sock, s'.m_sock = some sock ∧ sock.notify = true :=
  ⟨by decide, by decide, OnSocketEvent_notify_bracket builtPlugin ['L'] (by decide) (by decide)⟩

/-- C9: two received datagrams of length at least one with the same first
byte, handled from the same plugin state, give one and the same state after
(so the same LED state), which is also the state given by the one-byte
datagram made of that first byte. -/
theorem OnSocketEvent_first_byte_only (s : Plugin) (d₁ d₂ : List Char)
    (hsock : s.m_sock.isSome = true) (hbuilt : s.Built)
    (h₁ : 1 ≤ d₁.length) (h₂ : 1 ≤ d₂.length) (hhead : d₁.head? = d₂.head?) :
    ∃ s₁ s₂ s₃, OnSocketEvent s .wxSOCKET_INPUT d₁ = .ok s₁ ∧
      OnSocketEvent s .wxSOCKET_INPUT d₂ = .ok s₂ ∧
      OnSocketEvent s .wxSOCKET_INPUT (d₁.take 1) = .ok s₃ ∧
      s₁.m_led = s₂.m_led ∧ s₁.displayed = s₂.displayed ∧ s₁ = s₂ ∧ s₁ = s₃ := by
  cases d₁ with
  | nil => simp at h₁
  | cons c r₁ =>
    cases d₂ with
    | nil => simp at h₂
    | cons c₂ r₂ =>
      have hc : c₂ = c := by simpa using hhead.symm
      subst hc
      obtain ⟨s', hs'⟩ := OnSocketEvent_returns s .wxSOCKET_INPUT (c₂ :: r₁) hsock hbuilt
      refine ⟨s', s', s', hs', ?_, ?_, rfl, rfl, rfl, rfl⟩
      · rw [OnSocketEvent_cons_eq s c₂ r₂ r₁]; exact hs'
      · rw [List.take_succ_cons, List.take_zero, OnSocketEvent_cons_eq s c₂ [] r₁]; exact hs'

theorem OnSocketEvent_first_byte_only_witness :
    builtPlugin.m_sock.isSome = true ∧ builtPlugin.Built ∧
    1 ≤ ['H', 'L', 'Z'].length ∧ 1 ≤ ['H', 'q'].length ∧
    ['H', 'L', 'Z'].head? = ['H', 'q'].head? ∧
    ∃ s₁ s₂ s₃, OnSocketEvent builtPlugin .wxSOCKET_INPUT ['H', 'L', 'Z'] = .ok s₁ ∧
      OnSocketEvent builtPlugin .wxSOCKET_INPUT ['H', 'q'] = .ok s₂ ∧
      OnSocketEvent builtPlugin .wxSOCKET_INPUT (['H', 'L', 'Z'].take 1) = .ok s₃ ∧
      s₁.m_led = s₂.m_led ∧ s₁.displayed = s₂.displayed ∧ s₁ = s₂ ∧ s₁ = s₃ :=
  ⟨by decide, by decide, by decide, by decide, by decide,
    OnSocketEvent_first_byte_only builtPlugin ['H', 'L', 'Z'] ['H', 'q'] (by decide) (by decide)
      (by decide) (by decide) (by decide)⟩

/-! ## `OnDebugStart` -/

/-- Once the toolbar has been built, `OnDebugStart` shows the tristate-bitmap
and realizes the toolbar, whatever the LED displayed before. -/
theorem OnDebugStart_sets_tristate (s : Plugin) (hled : s.m_led.isSome = true)
    (hbuilt : s.Built) :
    ∃ s' tb, OnDebugStart s = .ok s' ∧ s'.displayed.isSome = true ∧
      s'.displayed = s.bitmapAt s.m_ledtri ∧
      s.m_toolbar = some tb ∧ s'.m_toolbar = some { tb with realized := tb.realized + 1 } ∧
      ∃ bmp, s'.calls = s.calls ++ [.SetBitmap bmp, .Realize] := by
  obtain ⟨htb, -, -, htri⟩ := hbuilt hled
  obtain ⟨led, hled⟩ := Option.isSome_iff_exists.mp hled
  obtain ⟨tb, htb⟩ := Option.isSome_iff_exists.mp htb
  obtain ⟨ptri, htri⟩ := Option.isSome_iff_exists.mp htri
  simp only [OnDebugStart, SimulavrToolbarPlugin.ledSetBitmap,
    SimulavrToolbarPlugin.toolbarRealize, SimulavrToolbarPlugin.call,
    SimulavrToolbarPlugin.displayed, SimulavrToolbarPlugin.bitmapAt, bind, Except.bind, hled,
    htb, htri]
  exact ⟨_, tb, rfl, rfl, rfl, rfl, rfl, s.deref ptri, by simp⟩

/-- C8: after construction and `OnAttach` the debugger-start sink is
registered while `m_led` is still NULL, and `OnDebugStart` run in that state
dereferences the NULL `m_led`: it faults instead of setting the LED. -/
theorem OnDebugStart_before_BuildToolBar (loadResource : Bool) :
    (OnAttach (SimulavrToolbarPlugin.new loadResource)).debugSink = true ∧
    (OnAttach (SimulavrToolbarPlugin.new loadResource)).m_led = none ∧
    OnDebugStart (OnAttach (SimulavrToolbarPlugin.new loadResource)) = .error .nullDeref := by
  cases loadResource <;> exact ⟨rfl, rfl, rfl⟩

/-! ## `SendByte` and the click handlers -/

/-- With a usable transmit socket the calls `SendByte ch` makes before it
returns or reaches its closing brace are the creation of the transmit socket
and one `SendTo` of the single byte `ch` to localhost port 7777. -/
theorem SendByte_calls_of_IsOk (env : SendEnv) (s : Plugin) (ch : Char)
    (hok : env.IsOk = true) :
    (SendByte env s ch).2.calls = s.calls ++ [.NewSocket 0, .SendTo "localhost" 7777 [ch]] := by
  simp only [SendByte, SimulavrToolbarPlugin.call, hok]
  by_cases h : env.LastCount = 1 <;> simp [h]

/-- A click handler completes exactly when `SendByte` returns a value, which
it does when the transmit socket is not usable or `SendTo` reports a count
other than one; the plugin after is then the one `SendByte` leaves. -/
theorem click_completes_iff (env : SendEnv) (s : Plugin) :
    ((∃ s', OnTempUpClicked env s = .ok s') ↔ (env.IsOk = false ∨ env.LastCount ≠ 1)) ∧
    ((∃ s', OnTempDnClicked env s = .ok s') ↔ (env.IsOk = false ∨ env.LastCount ≠ 1)) ∧
    (∀ s', OnTempUpClicked env s = .ok s' → s' = (SendByte env s '>').2) ∧
    (∀ s', OnTempDnClicked env s = .ok s' → s' = (SendByte env s '<').2) := by
  simp only [OnTempUpClicked, OnTempDnClicked, SendByte]
  cases env.IsOk <;> by_cases h : env.LastCount = 1 <;> simp [h]

/-- Without a usable transmit socket `SendByte` returns `false` and sends
nothing; when `SendTo` reports a count other than one it returns `false`. -/
theorem SendByte_failure_returns_false (env : SendEnv) (s : Plugin) (ch : Char) :
    (env.IsOk = false →
      (SendByte env s ch).1 = some false ∧
      (SendByte env s ch).2.calls = s.calls ++ [.NewSocket 0]) ∧
    (env.IsOk = true → env.LastCount ≠ 1 → (SendByte env s ch).1 = some false) := by
  constructor
  · intro h
    simp [SendByte, SimulavrToolbarPlugin.call, h]
  · intro h h'
    simp [SendByte, h, h']

/-- At most one `SendTo` is issued by `SendByte`. -/
theorem SendByte_at_most_one_SendTo (env : SendEnv) (s : Plugin) (ch : Char) :
    (((SendByte env s ch).2.calls.drop s.calls.length).filter Call.isSendTo).length ≤ 1 := by
  simp only [SendByte, SimulavrToolbarPlugin.call]
  cases env.IsOk <;> by_cases h : env.LastCount = 1 <;> simp [h, Call.isSendTo]

/-- C4: when the transmit socket is usable and exactly one byte was sent,
`SendByte` reaches the end of its body without a `return`: it returns no
value, in particular not `true`. -/
theorem SendByte_success_returns_nothing (s : Plugin) (ch : Char) :
    (SendByte { IsOk := true, LastCount := 1 } s ch).1 = none ∧
    (SendByte { IsOk := true, LastCount := 1 } s ch).1 ≠ some true := by
  simp [SendByte]

/-! ## `LoadBitmapFromResourceFile` -/

/-- What `LoadBitmapFromResourceFile` does to the plugin is to append the
calls `loadLog`; what it returns is `loadPtr`. -/
theorem LoadBitmapFromResourceFile_eq (env : ResourceEnv) (s : Plugin) (imagename : String) :
    LoadBitmapFromResourceFile env s imagename =
      (loadPtr env imagename, { s with calls := s.calls ++ loadLog env imagename }) := by
  simp only [LoadBitmapFromResourceFile, loadPtr, loadLog, SimulavrToolbarPlugin.call, blank,
    SimulavrToolbarPlugin.new]
  cases env.readable
  · simp
  · cases env.OpenFile ("file:" ++ env.resourceFile ++ "#zip:images/" ++ imagename) with
    | none => simp
    | some f => cases h : env.LoadFile f <;> simp [h]

/-- A load logs nothing or one error. -/
theorem loadLog_cases (env : ResourceEnv) (imagename : String) :
    loadLog env imagename = [] ∨ ∃ msg, loadLog env imagename = [.LogError msg] := by
  simp only [LoadBitmapFromResourceFile, loadLog, SimulavrToolbarPlugin.call, blank,
    SimulavrToolbarPlugin.new]
  cases env.readable
  · simp
  · cases env.OpenFile ("file:" ++ env.resourceFile ++ "#zip:images/" ++ imagename) with
    | none => simp
    | some f => cases h : env.LoadFile f <;> simp [h]

/-- The calls of a load are `LogError` calls. -/
theorem loadLog_mem (env : ResourceEnv) (imagename : String) (c : Call)
    (h : c ∈ loadLog env imagename) : ∃ msg, c = .LogError msg := by
  rcases loadLog_cases env imagename with h' | ⟨msg, h'⟩
  · simp [h'] at h
  · exact ⟨msg, by simpa [h'] using h⟩

/-- C5: `LoadBitmapFromResourceFile` returns the address of `m_dummyBmp` and
logs exactly one error whenever the archive is not readable, or the image is
not found in it, or the image does not decode; when all three steps succeed it
returns a new bitmap made from the decoded image, which is not `m_dummyBmp`,
and logs nothing. -/
theorem LoadBitmapFromResourceFile_outcome (env : ResourceEnv) (s : Plugin)
    (imagename : String) :
    ((env.readable = false ∨
        env.OpenFile ("file:" ++ env.resourceFile ++ "#zip:images/" ++ imagename) = none ∨
        (env.OpenFile ("file:" ++ env.resourceFile ++ "#zip:images/" ++ imagename)).bind
          env.LoadFile = none) →
      (LoadBitmapFromResourceFile env s imagename).1 = .dummyBmp ∧
      ∃ msg, (LoadBitmapFromResourceFile env s imagename).2 = s.call (.LogError msg) ∧
        (LoadBitmapFromResourceFile env s imagename).2.calls = s.calls ++ [.LogError msg]) ∧
    (∀ fsfile image, env.readable = true →
      env.OpenFile ("file:" ++ env.resourceFile ++ "#zip:images/" ++ imagename) = some fsfile →
      env.LoadFile fsfile = some image →
      (LoadBitmapFromResourceFile env s imagename).1 = .heap { image := some image } ∧
      (LoadBitmapFromResourceFile env s imagename).1 ≠ .dummyBmp ∧
      (LoadBitmapFromResourceFile env s imagename).2 = s) := by
  constructor
  · intro h
    simp only [LoadBitmapFromResourceFile]
    cases hr : env.readable
    · exact ⟨rfl, _, rfl, rfl⟩
    · cases ho : env.OpenFile ("file:" ++ env.resourceFile ++ "#zip:images/" ++ imagename) with
      | none => exact ⟨rfl, _, rfl, rfl⟩
      | some f =>
        cases hl : env.LoadFile f with
        | none =>
          simp only [hl]
          exact ⟨rfl, _, rfl, rfl⟩
        | some img => simp [hr, ho, hl] at h
  · intro fsfile image hr ho hl
    simp [LoadBitmapFromResourceFile, hr, ho, hl]

theorem LoadBitmapFromResourceFile_outcome_witness :
    (LoadBitmapFromResourceFile unreadableResources blank "ledon.png").1 = .dummyBmp ∧
    (∃ msg, (LoadBitmapFromResourceFile unreadableResources blank "ledon.png").2 =
        blank.call (.LogError msg) ∧
      (LoadBitmapFromResourceFile unreadableResources blank "ledon.png").2.calls =
        blank.calls ++ [.LogError msg]) ∧
    (LoadBitmapFromResourceFile goodResources blank "ledon.png").1 =
      .heap { image := some { pixels :=
        ("file:simulavr.zip#zip:images/ledon.png".toList.map Char.toNat) } } ∧
    (LoadBitmapFromResourceFile goodResources blank "ledon.png").1 ≠ .dummyBmp ∧
    (LoadBitmapFromResourceFile goodResources blank "ledon.png").2 = blank :=
  ⟨((LoadBitmapFromResourceFile_outcome unreadableResources blank "ledon.png").1 (Or.inl rfl)).1,
    ((LoadBitmapFromResourceFile_outcome unreadableResources blank "ledon.png").1 (Or.inl rfl)).2,
    (LoadBitmapFromResourceFile_outcome goodResources blank "ledon.png").2 _ _ rfl rfl rfl⟩

/-! ## `BuildToolBar` -/

/-- The calls of `BuildToolBar`: those of the five loads, the five additions
to the toolbar, then those of the socket block. -/
theorem BuildToolBar_calls (renv : ResourceEnv) (senv : SocketEnv) (s : Plugin)
    (toolBar : wxToolBar) :
    (BuildToolBar renv senv s toolBar).2.calls =
      s.calls ++ ((loadLog renv "ledon.png" ++ loadLog renv "ledoff.png" ++
        loadLog renv "ledtri.png" ++ loadLog renv "temp_up.png" ++ loadLog renv "temp_dn.png" ++
        [.AddControl (.staticText toolBar.id " LED State: "), .AddControl .led,
          .AddControl (.staticText toolBar.id "       Temperature: "),
          .AddTool TEMP_UP_ID, .AddTool TEMP_DOWN_ID]) ++
        (if senv.IsOk = true ∧ senv.GetLocal = true then
          [.NewSocket 8877, .SetEventHandler SOCKET_ID, .SetNotify, .Notify true,
            .Connect TEMP_UP_ID .OnTempUpClicked, .Connect TEMP_DOWN_ID .OnTempDnClicked]
        else [.NewSocket 8877, .DeleteSocket])) := by
  simp only [BuildToolBar, LoadBitmapFromResourceFile_eq, SimulavrToolbarPlugin.toolbarAdd,
    SimulavrToolbarPlugin.call, SimulavrToolbarPlugin.deref, Option.map_some']
  cases senv.IsOk <;> cases senv.GetLocal <;> simp

/-- The value `BuildToolBar` returns and the members it leaves. -/
theorem BuildToolBar_members (renv : ResourceEnv) (senv : SocketEnv) (s : Plugin)
    (toolBar : wxToolBar) :
    (BuildToolBar renv senv s toolBar).1 = true ∧
    (BuildToolBar renv senv s toolBar).2.m_sock =
      (if senv.IsOk = true ∧ senv.GetLocal = true then
        some { service := 8877, ok := true, eventHandler := some SOCKET_ID, inputFlag := true,
               notify := true }
      else none) ∧
    (BuildToolBar renv senv s toolBar).2.connections =
      s.connections ++ (if senv.IsOk = true ∧ senv.GetLocal = true then
        [Connection.mk TEMP_UP_ID .OnTempUpClicked, Connection.mk TEMP_DOWN_ID .OnTempDnClicked]
      else []) ∧
    (BuildToolBar renv senv s toolBar).2.m_ledon = some (loadPtr renv "ledon.png") ∧
    (BuildToolBar renv senv s toolBar).2.m_ledoff = some (loadPtr renv "ledoff.png") ∧
    (BuildToolBar renv senv s toolBar).2.m_ledtri = some (loadPtr renv "ledtri.png") ∧
    (BuildToolBar renv senv s toolBar).2.m_toolbar.isSome = true ∧
    (BuildToolBar renv senv s toolBar).2.m_led =
      some { bitmap := s.deref (loadPtr renv "ledtri.png") } := by
  simp only [BuildToolBar, LoadBitmapFromResourceFile_eq, SimulavrToolbarPlugin.toolbarAdd,
    SimulavrToolbarPlugin.call, SimulavrToolbarPlugin.deref, Option.map_some']
  cases senv.IsOk <;> cases senv.GetLocal <;> simp

/-- C6: `BuildToolBar` returns `true` on every path, and whenever the
listening socket (port 8877) is not OK or its local address cannot be obtained
it is silent about it: it leaves `m_sock` NULL and makes no call after creating
the socket but deleting it (no `SetEventHandler`, no `LogError`); a `LogError`
among its calls can only be one of its five bitmap loads, made before the
socket exists. -/
theorem BuildToolBar_socket_failure_silent (renv : ResourceEnv) (senv : SocketEnv) (s : Plugin)
    (toolBar : wxToolBar) :
    (BuildToolBar renv senv s toolBar).1 = true ∧
    (senv.IsOk = false ∨ senv.GetLocal = false →
      (BuildToolBar renv senv s toolBar).2.m_sock = none ∧
      (∃ pre, (BuildToolBar renv senv s toolBar).2.calls =
          s.calls ++ (pre ++ [.NewSocket 8877, .DeleteSocket]) ∧
        ∀ c ∈ pre, c.isSocketCall = false) ∧
      (∀ id, Call.SetEventHandler id ∉ (BuildToolBar renv senv s toolBar).2.calls.drop
        s.calls.length) ∧
      (∀ msg, Call.LogError msg ∈ (BuildToolBar renv senv s toolBar).2.calls.drop s.calls.length →
        ∃ name ∈ ["ledon.png", "ledoff.png", "ledtri.png", "temp_up.png", "temp_dn.png"],
          Call.LogError msg ∈ loadLog renv name)) := by
  refine ⟨(BuildToolBar_members renv senv s toolBar).1, fun hfail => ?_⟩
  have hno : ¬ (senv.IsOk = true ∧ senv.GetLocal = true) := by
    rcases hfail with h | h <;> simp [h]
  have hcalls := BuildToolBar_calls renv senv s toolBar
  rw [if_neg hno] at hcalls
  refine ⟨?_, ⟨_, hcalls, ?_⟩, ?_, ?_⟩
  · rw [(BuildToolBar_members renv senv s toolBar).2.1, if_neg hno]
  · intro c hc
    simp only [List.mem_append, List.mem_cons, List.mem_singleton, List.not_mem_nil,
      or_false] at hc
    rcases hc with ((((((h | h) | h) | h) | h)) | h)
    any_goals (obtain ⟨msg, rfl⟩ := loadLog_mem _ _ _ h; rfl)
    rcases h with h | h | h | h | h <;> subst h <;> rfl
  · intro id hmem
    rw [hcalls, List.drop_left] at hmem
    simp only [List.mem_append, List.mem_cons, List.mem_singleton, List.not_mem_nil,
      or_false] at hmem
    rcases hmem with ((((((h | h) | h) | h) | h) | h) | h)
    any_goals (obtain ⟨msg, h'⟩ := loadLog_mem _ _ _ h; cases h')
    · rcases h with h | h | h | h | h <;> cases h
    · rcases h with h | h <;> cases h
  · intro msg hmem
    rw [hcalls, List.drop_left] at hmem
    simp only [List.mem_append, List.mem_cons, List.mem_singleton, List.not_mem_nil,
      or_false] at hmem
    rcases hmem with ((((((h | h) | h) | h) | h) | h) | h)
    · exact ⟨"ledon.png", by simp, h⟩
    · exact ⟨"ledoff.png", by simp, h⟩
    · exact ⟨"ledtri.png", by simp, h⟩
    · exact ⟨"temp_up.png", by simp, h⟩
    · exact ⟨"temp_dn.png", by simp, h⟩
    · rcases h with h | h | h | h | h <;> cases h
    · rcases h with h | h <;> cases h

theorem BuildToolBar_socket_failure_silent_witness :
    (BuildToolBar goodResources { IsOk := false, GetLocal := true } attachedPlugin
      emptyToolBar).1 = true ∧
    (({ IsOk := false, GetLocal := true } : SocketEnv).IsOk = false ∨
      ({ IsOk := false, GetLocal := true } : SocketEnv).GetLocal = false) ∧
    (BuildToolBar goodResources { IsOk := false, GetLocal := true } attachedPlugin
      emptyToolBar).2.m_sock = none ∧
    (∃ pre, (BuildToolBar goodResources { IsOk := false, GetLocal := true } attachedPlugin
        emptyToolBar).2.calls = attachedPlugin.calls ++ (pre ++ [.NewSocket 8877, .DeleteSocket]) ∧
      ∀ c ∈ pre, c.isSocketCall = false) :=
  ⟨(BuildToolBar_socket_failure_silent goodResources { IsOk := false, GetLocal := true }
      attachedPlugin emptyToolBar).1,
    Or.inl rfl,
    ((BuildToolBar_socket_failure_silent goodResources { IsOk := false, GetLocal := true }
      attachedPlugin emptyToolBar).2 (Or.inl rfl)).1,
    ((BuildToolBar_socket_failure_silent goodResources { IsOk := false, GetLocal := true }
      attachedPlugin emptyToolBar).2 (Or.inl rfl)).2.1⟩

/-- When every bitmap loads, a `BuildToolBar` whose listening socket is not OK
logs nothing at all; the errors of an unreadable archive are the same five
whether the socket is usable or not. -/
theorem BuildToolBar_errors_are_load_errors :
    ((BuildToolBar goodResources { IsOk := false, GetLocal := true } attachedPlugin
        emptyToolBar).2.calls.drop attachedPlugin.calls.length).countP Call.isLogError = 0 ∧
    ((BuildToolBar unreadableResources { IsOk := false, GetLocal := false } attachedPlugin
        emptyToolBar).2.calls.drop attachedPlugin.calls.length).filter Call.isLogError =
      ((BuildToolBar unreadableResources { IsOk := true, GetLocal := true } attachedPlugin
        emptyToolBar).2.calls.drop attachedPlugin.calls.length).filter Call.isLogError := by
  decide

/-- C10: on the paths of `BuildToolBar` where the listening socket is not OK
or `GetLocal` fails no `Connect` is made and the event table is left as it
was, so that on a fresh plugin a click on any tool runs no handler and sends
nothing; on the success path `OnTempUpClicked` is connected to `TEMP_UP_ID`
(5000) and `OnTempDnClicked` to `TEMP_DOWN_ID` (5001), and a click runs them. -/
theorem BuildToolBar_connects_iff_socket (renv : ResourceEnv) (senv : SocketEnv) (s : Plugin)
    (toolBar : wxToolBar) :
    (TEMP_UP_ID = 5000 ∧ TEMP_DOWN_ID = 5001) ∧
    (senv.IsOk = false ∨ senv.GetLocal = false →
      (BuildToolBar renv senv s toolBar).2.connections = s.connections ∧
      (∀ c ∈ (BuildToolBar renv senv s toolBar).2.calls.drop s.calls.length,
        c.isConnect = false) ∧
      (s.connections = [] → ∀ env id,
        ToolClicked env (BuildToolBar renv senv s toolBar).2 id =
          .ok (BuildToolBar renv senv s toolBar).2)) ∧
    (senv.IsOk = true ∧ senv.GetLocal = true →
      (BuildToolBar renv senv s toolBar).2.connections =
        s.connections ++ [Connection.mk TEMP_UP_ID .OnTempUpClicked,
          Connection.mk TEMP_DOWN_ID .OnTempDnClicked] ∧
      ((BuildToolBar renv senv s toolBar).2.calls.drop s.calls.length).filter Call.isConnect =
        [.Connect TEMP_UP_ID .OnTempUpClicked, .Connect TEMP_DOWN_ID .OnTempDnClicked] ∧
      (s.connections = [] → ∀ env,
        ToolClicked env (BuildToolBar renv senv s toolBar).2 TEMP_UP_ID =
          OnTempUpClicked env (BuildToolBar renv senv s toolBar).2 ∧
        ToolClicked env (BuildToolBar renv senv s toolBar).2 TEMP_DOWN_ID =
          OnTempDnClicked env (BuildToolBar renv senv s toolBar).2)) := by
  have hcalls := BuildToolBar_calls renv senv s toolBar
  have hconn := (BuildToolBar_members renv senv s toolBar).2.2.1
  have hfilter : ∀ name, (loadLog renv name).filter Call.isConnect = [] := by
    intro name
    rw [List.filter_eq_nil_iff]
    intro c hc
    obtain ⟨msg, rfl⟩ := loadLog_mem _ _ _ hc
    simp [Call.isConnect]
  refine ⟨⟨rfl, rfl⟩, fun hfail => ?_, fun hok => ?_⟩
  · have hno : ¬ (senv.IsOk = true ∧ senv.GetLocal = true) := by
      rcases hfail with h | h <;> simp [h]
    rw [if_neg hno] at hcalls hconn
    rw [List.append_nil] at hconn
    refine ⟨hconn, ?_, ?_⟩
    · intro c hc
      rw [hcalls, List.drop_left] at hc
      have : c ∉ List.filter Call.isConnect
          (loadLog renv "ledon.png" ++ loadLog renv "ledoff.png" ++ loadLog renv "ledtri.png" ++
            loadLog renv "temp_up.png" ++ loadLog renv "temp_dn.png" ++
            [.AddControl (.staticText toolBar.id " LED State: "), .AddControl .led,
              .AddControl (.staticText toolBar.id "       Temperature: "),
              .AddTool TEMP_UP_ID, .AddTool TEMP_DOWN_ID] ++ [.NewSocket 8877, .DeleteSocket]) := by
        simp [List.filter_append, hfilter, Call.isConnect]
      rw [List.mem_filter] at this
      cases hcc : c.isConnect
      · rfl
      · exact absurd ⟨hc, hcc⟩ this
    · intro hempty env id
      simp [ToolClicked, hconn, hempty]
  · rw [if_pos hok] at hcalls hconn
    refine ⟨hconn, ?_, ?_⟩
    · rw [hcalls, List.drop_left]
      simp [List.filter_append, hfilter, Call.isConnect]
    · intro hempty env
      simp [ToolClicked, hconn, hempty, TEMP_UP_ID, TEMP_DOWN_ID]

theorem BuildToolBar_connects_iff_socket_witness :
    (BuildToolBar goodResources { IsOk := true, GetLocal := false } attachedPlugin
      emptyToolBar).2.connections = attachedPlugin.connections ∧
    (BuildToolBar goodResources { IsOk := true, GetLocal := true } attachedPlugin
      emptyToolBar).2.connections =
        attachedPlugin.connections ++ [Connection.mk TEMP_UP_ID .OnTempUpClicked,
          Connection.mk TEMP_DOWN_ID .OnTempDnClicked] :=
  ⟨((BuildToolBar_connects_iff_socket goodResources { IsOk := true, GetLocal := false }
      attachedPlugin emptyToolBar).2.1 (Or.inr rfl)).1,
    ((BuildToolBar_connects_iff_socket goodResources { IsOk := true, GetLocal := true }
      attachedPlugin emptyToolBar).2.2 ⟨rfl, rfl⟩).1⟩

/-! ## The invariant `Built`

`Built` is what the statements about `OnSocketEvent` assume of the plugin.  It
holds of the constructed plugin, `BuildToolBar` establishes it together with a
live LED control, and every handler keeps it. -/

theorem Built_new (loadResource : Bool) : (SimulavrToolbarPlugin.new loadResource).Built := by
  cases loadResource <;> decide

theorem Built_OnAttach (s : Plugin) (h : s.Built) : (OnAttach s).Built := h

theorem Built_BuildToolBar (renv : ResourceEnv) (senv : SocketEnv) (s : Plugin)
    (toolBar : wxToolBar) :
    (BuildToolBar renv senv s toolBar).2.Built ∧
    (BuildToolBar renv senv s toolBar).2.m_led.isSome = true ∧
    ((BuildToolBar renv senv s toolBar).2.m_sock.isSome = true ↔
      senv.IsOk = true ∧ senv.GetLocal = true) := by
  obtain ⟨-, hsock, -, hon, hoff, htri, htb, hled⟩ := BuildToolBar_members renv senv s toolBar
  refine ⟨fun _ => ⟨htb, by simp [hon], by simp [hoff], by simp [htri]⟩, by simp [hled], ?_⟩
  rw [hsock]
  by_cases h : senv.IsOk = true ∧ senv.GetLocal = true <;> simp [h]

theorem Built_SendByte (env : SendEnv) (s : Plugin) (ch : Char) (h : s.Built) :
    (SendByte env s ch).2.Built := by
  simp only [SendByte, SimulavrToolbarPlugin.call]
  cases env.IsOk <;> by_cases h' : env.LastCount = 1 <;> simpa [h'] using h

theorem Built_OnTempUpClicked (env : SendEnv) (s s' : Plugin)
    (h : OnTempUpClicked env s = .ok s') (hb : s.Built) : s'.Built := by
  rw [(click_completes_iff env s).2.2.1 s' h]
  exact Built_SendByte env s _ hb

theorem Built_OnTempDnClicked (env : SendEnv) (s s' : Plugin)
    (h : OnTempDnClicked env s = .ok s') (hb : s.Built) : s'.Built := by
  rw [(click_completes_iff env s).2.2.2 s' h]
  exact Built_SendByte env s _ hb

theorem Built_OnDebugStart (s s' : Plugin) (h : OnDebugStart s = .ok s') (hb : s.Built) :
    s'.Built := by
  simp only [OnDebugStart, SimulavrToolbarPlugin.ledSetBitmap,
    SimulavrToolbarPlugin.toolbarRealize, SimulavrToolbarPlugin.call, bind, Except.bind] at h
  cases hled : s.m_led with
  | none => simp [hled] at h
  | some led =>
    obtain ⟨htb, hon, hoff, htri⟩ := hb (by simp [hled])
    obtain ⟨tb, htb⟩ := Option.isSome_iff_exists.mp htb
    obtain ⟨ptri, htri'⟩ := Option.isSome_iff_exists.mp htri
    simp only [hled, htb, htri', Except.ok.injEq] at h
    subst h
    intro _
    exact ⟨rfl, hon, hoff, rfl⟩

theorem Built_OnSocketEvent (s s' : Plugin) (event : wxSocketNotify) (pending : List Char)
    (h : OnSocketEvent s event pending = .ok s') (hb : s.Built) : s'.Built := by
  cases event
  case wxSOCKET_INPUT =>
    cases hsock : s.m_sock with
    | none =>
      simp [OnSocketEvent, SimulavrToolbarPlugin.sockNotify, bind, Except.bind, hsock] at h
    | some sock =>
      cases pending with
      | nil =>
        simp only [OnSocketEvent, SimulavrToolbarPlugin.sockNotify,
          SimulavrToolbarPlugin.sockRecvFrom, SimulavrToolbarPlugin.call, bind, Except.bind,
          hsock, List.take_nil, Except.ok.injEq] at h
        subst h
        exact hb
      | cons c rest =>
        cases hled : s.m_led with
        | none =>
          simp only [OnSocketEvent, SimulavrToolbarPlugin.sockNotify,
            SimulavrToolbarPlugin.sockRecvFrom, SimulavrToolbarPlugin.call, bind, Except.bind,
            pure, Except.pure, hsock, hled, List.take_succ_cons, Option.isSome_none,
            Bool.false_eq_true, if_false, Except.ok.injEq] at h
          subst h
          intro h'
          simp [hled] at h'
        | some led =>
          obtain ⟨htb, hon, hoff, htri⟩ := hb (by simp [hled])
          obtain ⟨tb, htb⟩ := Option.isSome_iff_exists.mp htb
          obtain ⟨pon, hon⟩ := Option.isSome_iff_exists.mp hon
          obtain ⟨poff, hoff⟩ := Option.isSome_iff_exists.mp hoff
          obtain ⟨ptri, htri⟩ := Option.isSome_iff_exists.mp htri
          simp only [OnSocketEvent, SimulavrToolbarPlugin.sockNotify,
            SimulavrToolbarPlugin.sockRecvFrom, SimulavrToolbarPlugin.ledSetBitmap,
            SimulavrToolbarPlugin.toolbarRealize, SimulavrToolbarPlugin.call, bind, Except.bind,
            pure, Except.pure, hsock, hled, htb, hon, hoff, htri, List.take_succ_cons,
            Option.isSome_some, if_true] at h
          split_ifs at h <;> simp only [Except.ok.injEq] at h <;> subst h <;> intro _ <;>
            exact ⟨rfl, rfl, rfl, rfl⟩
  all_goals
    simp only [OnSocketEvent, pure, Except.pure, Except.ok.injEq] at h
    subst h
    exact hb

/-- Every reachable plugin state satisfies `Built`. -/
theorem Built_of_Reachable (s : Plugin) (h : Reachable s) : s.Built := by
  induction h with
  | new b => exact Built_new b
  | attach _ ih => exact Built_OnAttach _ ih
  | build renv senv toolBar _ _ => exact (Built_BuildToolBar renv senv _ toolBar).1
  | socketEvent event pending _ hok ih => exact Built_OnSocketEvent _ _ event pending hok ih
  | debugStart _ hok ih => exact Built_OnDebugStart _ _ hok ih
  | tempUp env _ hok ih => exact Built_OnTempUpClicked env _ _ hok ih
  | tempDn env _ hok ih => exact Built_OnTempDnClicked env _ _ hok ih

end SimulavrToolbar
